import Mathlib

/-!
Verification development for the `valuation_data_miner` repository
(`src/src/data_parser.py`, `src/src/config.py`).

The Python source is shallowly embedded: strings are Lean `String`s
(processed as `List Char`), the fixed regular expressions of the source
are compiled by hand into values of a small backtracking regex engine
(`RE` below) whose semantics mirrors Python's `re` for the constructs
those patterns use (greedy bounded repetition over character classes,
ordered alternation, optional items, case-insensitive literals, capture
groups, leftmost search).  `re.search` calls whose pattern/behaviour no
claim depends on are routed through an abstract oracle of type `Search`,
so that structural theorems about the record assembler hold for every
possible matcher behaviour.  All definitions use structural recursion so
that concrete claims evaluate by kernel reduction (`decide` / `rfl`).

Python-specific conventions modelled here: `\s` and `str.strip()` are
modelled over the ASCII whitespace characters (all texts in this
development are ASCII); `os.path.basename` is modelled for POSIX paths.
-/

namespace VDM

set_option maxRecDepth 40000

/-! ### Character and Python-string utilities -/

/-- ASCII lower-casing, as used by `re.IGNORECASE` and `str.lower()`
on the ASCII texts handled here. -/
def asciiLower (c : Char) : Char :=
  if 'A' ≤ c ∧ c ≤ 'Z' then Char.ofNat (c.toNat + 32) else c

/-- Python whitespace (`\s`, `str.strip()`, `str.split()`), ASCII part. -/
def isPyWs (c : Char) : Bool :=
  c = ' ' ∨ c = '\t' ∨ c = '\n' ∨ c = '\r' ∨ c = '\x0b' ∨ c = '\x0c'

/-- ASCII letter, the class `[A-Za-z]`. -/
def isAlphaAscii (c : Char) : Bool :=
  ('A' ≤ c ∧ c ≤ 'Z') ∨ ('a' ≤ c ∧ c ≤ 'z')

/-- ASCII digit, the class `[0-9]` / `\d`. -/
def isDigitAscii (c : Char) : Bool :=
  '0' ≤ c ∧ c ≤ '9'

/-- Case-sensitive list-prefix test. -/
def begWith : List Char → List Char → Bool
  | [], _ => true
  | _ :: _, [] => false
  | p :: ps, c :: cs => p = c && begWith ps cs

/-- Case-insensitive prefix removal: if `pat` (compared via `asciiLower`)
is a prefix of `cs`, return the remainder. -/
def dropCi : List Char → List Char → Option (List Char)
  | [], cs => some cs
  | _ :: _, [] => none
  | p :: ps, c :: cs => if asciiLower p = asciiLower c then dropCi ps cs else none

/-- Python `pat in s` substring containment (case-sensitive). -/
def containsSub : List Char → List Char → Bool
  | cs, pat => begWith pat cs || (match cs with
      | [] => false
      | _ :: t => containsSub t pat)

/-- Fuel-driven helper for `countSub` (fuel bounds the number of steps;
`cs.length` always suffices for a nonempty pattern). -/
def countSubAux : Nat → List Char → List Char → Nat
  | 0, _, _ => 0
  | _ + 1, [], _ => 0
  | fuel + 1, c :: t, pat =>
      if begWith pat (c :: t) then 1 + countSubAux fuel ((c :: t).drop pat.length) pat
      else countSubAux fuel t pat

/-- Python `s.count(pat)`: non-overlapping occurrences, scanned left to
right, for a nonempty `pat`. -/
def countSub (cs pat : List Char) : Nat := countSubAux cs.length cs pat

/-- Strip leading Python whitespace. -/
def lstripWs (cs : List Char) : List Char := cs.dropWhile isPyWs

/-- Python `str.strip()` (default, whitespace on both ends). -/
def pyStrip (cs : List Char) : List Char :=
  ((cs.dropWhile isPyWs).reverse.dropWhile isPyWs).reverse

/-- `str.strip()` on `String`s. -/
def pyStripStr (s : String) : String := String.mk (pyStrip s.data)

/-- Helper for `pySplit`: `acc` is the current word, reversed. -/
def pySplitAux : List Char → List Char → List (List Char)
  | acc, [] => if acc = [] then [] else [acc.reverse]
  | acc, c :: t =>
      if isPyWs c then
        if acc = [] then pySplitAux [] t else acc.reverse :: pySplitAux [] t
      else pySplitAux (c :: acc) t

/-- Python `s.split()` with no argument: words separated by whitespace runs. -/
def pySplit (cs : List Char) : List (List Char) := pySplitAux [] cs

/-- `_clean_whitespace` (data_parser.py line 14): collapse internal
whitespace to single spaces; the empty string passes through. -/
def cleanWs (s : String) : String :=
  if s = "" then s
  else String.intercalate " " ((pySplit s.data).map String.mk)

/-- `_safe` (data_parser.py line 17): replace the empty string by the
sentinel (the `None` case cannot arise for Lean strings). -/
def safeVal (v : String) : String := if v = "" then "N/A" else v

/-- Numeric value of a digit list (most significant first). -/
def natOfDigits (cs : List Char) : Nat :=
  cs.foldl (fun acc c => 10 * acc + (c.toNat - '0'.toNat)) 0

/-- Zero-padded two-digit decimal rendering. -/
def pad2 (n : Nat) : String := if n < 10 then "0" ++ toString n else toString n

/-- Zero-padded four-digit decimal rendering (as `strftime` `%Y`). -/
def pad4 (n : Nat) : String :=
  if n < 10 then "000" ++ toString n
  else if n < 100 then "00" ++ toString n
  else if n < 1000 then "0" ++ toString n
  else toString n

/-! ### A small backtracking regex engine

Each fixed pattern of the source is hand-compiled into an `RE` value.
The engine implements Python `re` semantics for the constructs used by
those patterns: greedy bounded/unbounded repetition over a character
class, lazy unbounded repetition, ordered alternation, optional items,
case-insensitive literals, capture groups, and unanchored leftmost
search.  Matching is continuation-passing with explicit backtracking. -/

inductive RE where
  | eps : RE
  | nil : RE
  | cls : (Char → Bool) → RE
  | lit : List Char → RE
  | rep : (Char → Bool) → Nat → Nat → RE
  | star : (Char → Bool) → RE
  | lstar : (Char → Bool) → RE
  | opt : RE → RE
  | alt : RE → RE → RE
  | seq : RE → RE → RE
  | grp : Nat → RE → RE

/-- Captures: group index paired with the captured characters
(most recently closed group first). -/
abbrev Caps := List (Nat × List Char)

/-- Engine result: remaining input and captures. -/
abbrev MRes := Option (List Char × Caps)

/-- Greedy `{mn,mx}` repetition of a character class: consume as many
class characters as possible (at most `mx`), backtracking down to `mn`. -/
def mrep (p : Char → Bool) : Nat → Nat → List Char → (List Char → MRes) → MRes
  | mn, 0, cs, k => if mn = 0 then k cs else none
  | mn, _ + 1, [], k => if mn = 0 then k [] else none
  | mn, mx + 1, c :: rest, k =>
      if p c then
        match mrep p (mn - 1) mx rest k with
        | some r => some r
        | none => if mn = 0 then k (c :: rest) else none
      else if mn = 0 then k (c :: rest) else none

/-- Greedy `*` repetition of a character class. -/
def mstar (p : Char → Bool) : List Char → (List Char → MRes) → MRes
  | [], k => k []
  | c :: rest, k =>
      if p c then
        match mstar p rest k with
        | some r => some r
        | none => k (c :: rest)
      else k (c :: rest)

/-- Lazy `*?` repetition of a character class. -/
def mlazy (p : Char → Bool) : List Char → (List Char → MRes) → MRes
  | [], k => k []
  | c :: rest, k =>
      match k (c :: rest) with
      | some r => some r
      | none => if p c then mlazy p rest k else none

/-- The matcher.  `mmatch r cs caps k` attempts to match `r` at the head
of `cs`, calling the continuation `k` on the remainder; alternatives are
tried in Python's backtracking order. -/
def mmatch : RE → List Char → Caps → (List Char → Caps → MRes) → MRes
  | .eps, cs, caps, k => k cs caps
  | .nil, _, _, _ => none
  | .cls p, cs, caps, k =>
      match cs with
      | [] => none
      | c :: rest => if p c then k rest caps else none
  | .lit s, cs, caps, k =>
      match dropCi s cs with
      | some rest => k rest caps
      | none => none
  | .rep p mn mx, cs, caps, k => mrep p mn mx cs (fun rest => k rest caps)
  | .star p, cs, caps, k => mstar p cs (fun rest => k rest caps)
  | .lstar p, cs, caps, k => mlazy p cs (fun rest => k rest caps)
  | .opt r, cs, caps, k =>
      match mmatch r cs caps k with
      | some res => some res
      | none => k cs caps
  | .alt r1 r2, cs, caps, k =>
      match mmatch r1 cs caps k with
      | some res => some res
      | none => mmatch r2 cs caps k
  | .seq r1 r2, cs, caps, k =>
      mmatch r1 cs caps (fun cs' caps' => mmatch r2 cs' caps' k)
  | .grp i r, cs, caps, k =>
      mmatch r cs caps (fun cs' caps' =>
        k cs' ((i, cs.take (cs.length - cs'.length)) :: caps'))

/-- Anchored match attempt at the start of `cs`. -/
def matchHere (r : RE) (cs : List Char) : MRes :=
  mmatch r cs [] (fun rest caps => some (rest, caps))

/-- Unanchored leftmost search (Python `re.search`): returns the matched
characters (`group(0)`) and the captures. -/
def research (r : RE) : List Char → Option (List Char × Caps)
  | [] =>
      match matchHere r [] with
      | some (_, caps) => some ([], caps)
      | none => none
  | c :: t =>
      match matchHere r (c :: t) with
      | some (rest, caps) =>
          some ((c :: t).take ((c :: t).length - rest.length), caps)
      | none => research r t

/-- Sequence of a list of items. -/
def seqs (l : List RE) : RE := l.foldr RE.seq RE.eps

/-- Ordered alternation of a list of items. -/
def alts (l : List RE) : RE := l.foldr RE.alt RE.nil

/-- Case-insensitive literal from a string. -/
def lits (s : String) : RE := RE.lit s.data

/-- Single literal character (case-sensitive contexts: digits, separators). -/
def chr (c : Char) : RE := RE.cls (fun x => x = c)

/-! ### `normalize_number` (data_parser.py lines 20-43) -/

/-- Does `cs` start with case-insensitive `kshs`? -/
def atKshs (cs : List Char) : Bool :=
  match cs with
  | c1 :: c2 :: c3 :: c4 :: _ =>
      asciiLower c1 = 'k' ∧ asciiLower c2 = 's' ∧ asciiLower c3 = 'h' ∧ asciiLower c4 = 's'
  | _ => false

/-- Skip a leading `kshs` plus an optional dot (the `\.?` of the pattern). -/
def dropKshs (cs : List Char) : List Char :=
  match cs.drop 4 with
  | '.' :: r => r
  | r => r

/-- Fuel-driven helper for `subKshs` (`cs.length` fuel always suffices). -/
def subKshsAux : Nat → List Char → List Char
  | 0, cs => cs
  | _ + 1, [] => []
  | fuel + 1, c :: rest =>
      if atKshs (c :: rest) then subKshsAux fuel (dropKshs (c :: rest))
      else c :: subKshsAux fuel rest

/-- `re.sub(r'(?i)kshs\.?', '', s)`: delete every (case-insensitive)
occurrence of `kshs` together with an optional following dot, scanning
left to right, non-overlapping. -/
def subKshs (cs : List Char) : List Char := subKshsAux cs.length cs

/-- `s.lstrip("0") or "0"`. -/
def lstripZero (cs : List Char) : List Char :=
  match cs.dropWhile (fun c => c = '0') with
  | [] => ['0']
  | r => r

/-- `normalize_number` (data_parser.py lines 20-43): strip currency
tokens and OCR artifacts, keep digits only, strip leading zeros; the
sentinel on empty input, the sentinel input, or an empty result.  The
`try` wrapper never fires in this model (all steps are total), and the
final `isdigit` check is kept although it always succeeds after the
separator removal. -/
def normalize_number (raw : String) : String :=
  if raw = "" ∨ raw = "N/A" then "N/A"
  else
    let s1 := subKshs raw.data
    let s2 := s1.filter (fun c => ¬ (c = '/' ∨ c = '='))
    let s3 := s2.filter (fun c => isDigitAscii c ∨ c = '.' ∨ c = ',')
    let s4 := s3.filter (fun c => ¬ (c = ',' ∨ c = '.'))
    if s4 = [] then "N/A"
    else
      let s5 := lstripZero s4
      if s5.all isDigitAscii then String.mk s5 else "N/A"

/-! ### `datetime.strptime` model

`fuzzy_date_search` tries the format templates
`["%d %B %Y", "%d %b %Y", "%d/%m/%Y", "%d-%m-%Y", "%d/%m/%y", "%B %d %Y", "%b %d %Y"]`.
CPython's `_strptime` compiles each format to a regular expression
(whitespace in the format becomes `\s+`; `%d` is `3[01]|[12]\d|0[1-9]|[1-9]`;
`%m` is `1[0-2]|0[1-9]|[1-9]`; `%y` is `\d\d`; `%Y` is `\d\d\d\d`;
`%B`/`%b` are alternations of the English month names, matched
case-insensitively), requires the whole string to be consumed, and then
validates the day against the calendar (`datetime.date` raises on an
invalid date).  Those regexes are reproduced here with the same engine. -/

/-- Digit in `[1-9]`. -/
def isD19 (c : Char) : Bool := '1' ≤ c ∧ c ≤ '9'

/-- `%d`: `(3[01]|[12]\d|0[1-9]|[1-9])`, captured as group 1. -/
def reD : RE :=
  RE.grp 1 (alts
    [seqs [chr '3', RE.cls (fun c => c = '0' ∨ c = '1')],
     seqs [RE.cls (fun c => c = '1' ∨ c = '2'), RE.cls isDigitAscii],
     seqs [chr '0', RE.cls isD19],
     RE.cls isD19])

/-- `%m`: `(1[0-2]|0[1-9]|[1-9])`, captured as group 2. -/
def reM : RE :=
  RE.grp 2 (alts
    [seqs [chr '1', RE.cls (fun c => c = '0' ∨ c = '1' ∨ c = '2')],
     seqs [chr '0', RE.cls isD19],
     RE.cls isD19])

/-- `%Y`: `(\d\d\d\d)`, captured as group 3. -/
def reY4 : RE := RE.grp 3 (RE.rep isDigitAscii 4 4)

/-- `%y`: `(\d\d)`, captured as group 3. -/
def reY2 : RE := RE.grp 3 (RE.rep isDigitAscii 2 2)

/-- Full English month names, in `_strptime`'s longest-first order. -/
def monthFulls : List String :=
  ["September", "February", "November", "December", "January", "October",
   "August", "March", "April", "June", "July", "May"]

/-- Abbreviated English month names. -/
def monthAbbrs : List String :=
  ["Jan", "Feb", "Mar", "Apr", "May", "Jun", "Jul", "Aug", "Sep", "Oct", "Nov", "Dec"]

/-- `%B`: alternation of the full month names, captured as group 2. -/
def reB : RE := RE.grp 2 (alts (monthFulls.map lits))

/-- `%b`: alternation of the abbreviated month names, group 2. -/
def reb : RE := RE.grp 2 (alts (monthAbbrs.map lits))

/-- `\s+` (whitespace run in a format string). -/
def wsPlus : RE := seqs [RE.cls isPyWs, RE.star isPyWs]

/-- Month number from a (lower-cased) captured month name, full or
abbreviated; 0 if unknown (cannot happen for engine captures). -/
def monthNum (cs : List Char) : Nat :=
  let s := String.mk (cs.map asciiLower)
  let full := ["january", "february", "march", "april", "may", "june", "july",
               "august", "september", "october", "november", "december"]
  let abbr := ["jan", "feb", "mar", "apr", "may", "jun", "jul", "aug", "sep", "oct", "nov", "dec"]
  match (full.indexOf s, abbr.indexOf s) with
  | (i, j) => if i < 12 then i + 1 else if j < 12 then j + 1 else 0

/-- The seven formats tried by `fuzzy_date_search`, as engine regexes. -/
def fmtRes : List RE :=
  [seqs [reD, wsPlus, reB, wsPlus, reY4],
   seqs [reD, wsPlus, reb, wsPlus, reY4],
   seqs [reD, chr '/', reM, chr '/', reY4],
   seqs [reD, chr '-', reM, chr '-', reY4],
   seqs [reD, chr '/', reM, chr '/', reY2],
   seqs [reB, wsPlus, reD, wsPlus, reY4],
   seqs [reb, wsPlus, reD, wsPlus, reY4]]

/-- Leap year (proleptic Gregorian, as `datetime`). -/
def isLeap (y : Nat) : Bool := y % 4 = 0 ∧ (y % 100 ≠ 0 ∨ y % 400 = 0)

/-- Days in a month (`m` between 1 and 12). -/
def daysInMonth (y m : Nat) : Nat :=
  if m = 2 then (if isLeap y then 29 else 28)
  else if m = 4 ∨ m = 6 ∨ m = 9 ∨ m = 11 then 30
  else 31

/-- Group lookup in the captures (latest capture of the index wins, as
Python keeps the last repetition of a group). -/
def capGet (caps : Caps) (i : Nat) : Option (List Char) :=
  (caps.find? (fun x => x.1 == i)).map (fun x => x.2)

/-- Run one `strptime` format: anchored full match, then decode
day / month / year (two-digit years map to 1969-2068 as in CPython)
and validate against the calendar.  Returns `(year, month, day)`. -/
def runFmt (r : RE) (cs : List Char) : Option (Nat × Nat × Nat) :=
  match matchHere r cs with
  | none => none
  | some (rest, caps) =>
      if rest = [] then
        match capGet caps 1, capGet caps 2, capGet caps 3 with
        | some gd, some gm, some gy =>
            let d := natOfDigits gd
            let m := if gm.all isDigitAscii then natOfDigits gm else monthNum gm
            let y0 := natOfDigits gy
            let y := if gy.length = 2 then (if y0 ≤ 68 then y0 + 2000 else y0 + 1900) else y0
            if 1 ≤ y ∧ 1 ≤ m ∧ m ≤ 12 ∧ 1 ≤ d ∧ d ≤ daysInMonth y m then
              some (y, m, d)
            else none
        | _, _, _ => none
      else none

/-- Try the formats in order; first success wins. -/
def tryFmts : List RE → List Char → Option (Nat × Nat × Nat)
  | [], _ => none
  | r :: rs, cs =>
      match runFmt r cs with
      | some v => some v
      | none => tryFmts rs cs

/-- `dt.strftime("%Y-%m-%d")`. -/
def fmtISO : Nat × Nat × Nat → String
  | (y, m, d) => pad4 y ++ "-" ++ pad2 m ++ "-" ++ pad2 d

/-! ### `fuzzy_date_search` (data_parser.py lines 45-73) -/

/-- The punctuation class `[,\s\-\/\.]`. -/
def isDatePunct (c : Char) : Bool :=
  c = ',' ∨ isPyWs c ∨ c = '-' ∨ c = '/' ∨ c = '.'

/-- Pattern 1:
`(\d{1,2}\s*(?:st|nd|rd|th|%|º|o)?\s*[,\s\-\/\.]?\s*[A-Za-z]{3,9}\s*[,\s\-\/\.]?\s*\d{4})`. -/
def reDate1 : RE :=
  RE.grp 1 (seqs
    [RE.rep isDigitAscii 1 2,
     RE.star isPyWs,
     RE.opt (alts [lits "st", lits "nd", lits "rd", lits "th", lits "%", lits "º", lits "o"]),
     RE.star isPyWs,
     RE.opt (RE.cls isDatePunct),
     RE.star isPyWs,
     RE.rep isAlphaAscii 3 9,
     RE.star isPyWs,
     RE.opt (RE.cls isDatePunct),
     RE.star isPyWs,
     RE.rep isDigitAscii 4 4])

/-- Pattern 2: `(\d{1,2}[\/\-]\d{1,2}[\/\-]\d{2,4})`. -/
def reDate2 : RE :=
  RE.grp 1 (seqs
    [RE.rep isDigitAscii 1 2,
     RE.cls (fun c => c = '/' ∨ c = '-'),
     RE.rep isDigitAscii 1 2,
     RE.cls (fun c => c = '/' ∨ c = '-'),
     RE.rep isDigitAscii 2 4])

/-- Pattern 3: `([A-Za-z]{3,9}\s*\d{1,2}[,\s\-\/\.]?\s*\d{4})`. -/
def reDate3 : RE :=
  RE.grp 1 (seqs
    [RE.rep isAlphaAscii 3 9,
     RE.star isPyWs,
     RE.rep isDigitAscii 1 2,
     RE.opt (RE.cls isDatePunct),
     RE.star isPyWs,
     RE.rep isDigitAscii 4 4])

/-- `candidate.replace('%', 'th').replace('º', 'th')`: both replacements
expand to `th`, which contains neither source character, so a single
left-to-right pass implements the composition. -/
def expandPct : List Char → List Char
  | [] => []
  | '%' :: t => 't' :: 'h' :: expandPct t
  | 'º' :: t => 't' :: 'h' :: expandPct t
  | c :: t => c :: expandPct t

/-- `re.sub(r'(?<=\d)(?:st|nd|rd|th)', '', s, flags=re.IGNORECASE)`:
delete ordinal suffixes directly preceded by a digit.  The look-behind
inspects the original string, so after deleting a suffix the scan
continues with the last deleted character as the previous character. -/
def stripOrdAux : Char → List Char → List Char
  | _, [] => []
  | _, [c] => [c]
  | prev, c :: c2 :: t2 =>
      if isDigitAscii prev ∧
         ((asciiLower c = 's' ∧ asciiLower c2 = 't') ∨
          (asciiLower c = 'n' ∧ asciiLower c2 = 'd') ∨
          (asciiLower c = 'r' ∧ asciiLower c2 = 'd') ∨
          (asciiLower c = 't' ∧ asciiLower c2 = 'h')) then
        stripOrdAux c2 t2
      else c :: stripOrdAux c (c2 :: t2)

/-- Ordinal-suffix removal on a whole string (no digit precedes the
first character). -/
def stripOrd (cs : List Char) : List Char := stripOrdAux ' ' cs

/-- Search the three date patterns in order and return the first
pattern's group 1, if any. -/
def firstDateMatch : List RE → List Char → Option (List Char)
  | [], _ => none
  | r :: rs, cs =>
      match research r cs with
      | some (_, caps) =>
          match capGet caps 1 with
          | some g => some g
          | none => none
      | none => firstDateMatch rs cs

/-- `fuzzy_date_search` (data_parser.py lines 45-73): find a date-shaped
substring via three patterns tried in order; repair OCR ordinal suffixes;
try the format templates; on success return ISO `YYYY-MM-DD`, otherwise
the whitespace-cleaned candidate; the sentinel when nothing matches. -/
def fuzzy_date_search (text : String) : String :=
  if text = "" then "N/A"
  else
    match firstDateMatch [reDate1, reDate2, reDate3] text.data with
    | none => "N/A"
    | some candidate =>
        let cc := stripOrd (expandPct candidate)
        match tryFmts fmtRes (pyStrip cc) with
        | some ymd => fmtISO ymd
        | none => cleanWs (String.mk cc)

/-! ### `extract_coordinates` (data_parser.py lines 78-106)

The decimal pattern `(-?\d{1,3}\.\d+)\s*[,;\s]\s*(-?\d{1,3}\.\d+)` is
compiled to a direct matcher.  For this pattern the backtracking search
is deterministic: `\d{1,3}` followed by `\.` succeeds exactly when the
whole digit run at that point has length 1-3 and is followed by a dot
(taking fewer digits always leaves a digit, not a dot, as the next
character); and in `\s*[,;\s]\s*` the only viable end positions are
after a comma/semicolon run-skip or, failing that, after a nonempty
whitespace run (every other backtracking stop leaves a whitespace,
comma or semicolon as the next character, on which `-?\d` fails). -/

/-- Maximal leading digit run, capped at `n` characters. -/
def munchDigits : Nat → List Char → List Char × List Char
  | 0, cs => ([], cs)
  | _ + 1, [] => ([], [])
  | n + 1, c :: t =>
      if isDigitAscii c then
        match munchDigits n t with
        | (ds, rest) => (c :: ds, rest)
      else ([], c :: t)

/-- The `\d{1,3}\.\d+` part of a decimal token, after the optional
sign: 1-3 digits, a dot, then at least one digit. -/
def decTokBody (sign rest : List Char) : Option (List Char × List Char) :=
  match munchDigits 3 rest with
  | (ds, rest1) =>
      if ds = [] then none
      else
        match rest1 with
        | c :: rest2 =>
            if c = '.' then
              match munchDigits rest2.length rest2 with
              | (fs, rest3) =>
                  if fs = [] then none else some (sign ++ ds ++ '.' :: fs, rest3)
            else none
        | [] => none

/-- One decimal token `-?\d{1,3}\.\d+`: returns (token, rest). -/
def decTok (cs : List Char) : Option (List Char × List Char) :=
  match cs with
  | c :: r => if c = '-' then decTokBody ['-'] r else decTokBody [] (c :: r)
  | [] => decTokBody [] []

/-- The separator `\s*[,;\s]\s*` between the two tokens. -/
def decSep (cs : List Char) : Option (List Char) :=
  let ws := cs.takeWhile isPyWs
  let rest := cs.dropWhile isPyWs
  match rest with
  | c :: r => if c = ',' ∨ c = ';' then some (r.dropWhile isPyWs)
              else if ws = [] then none else some rest
  | [] => if ws = [] then none else some []

/-- Attempt the full decimal pair at the current position. -/
def decTryAt (cs : List Char) : Option (List Char × List Char) :=
  match decTok cs with
  | none => none
  | some (t1, r1) =>
      match decSep r1 with
      | none => none
      | some r2 =>
          match decTok r2 with
          | none => none
          | some (t2, _) => some (t1, t2)

/-- Leftmost search for the decimal pair. -/
def decSearch : List Char → Option (List Char × List Char)
  | [] => none
  | c :: t =>
      match decTryAt (c :: t) with
      | some r => some r
      | none => decSearch t

/-- Class `[°\s]`. -/
def isDegWs (c : Char) : Bool := c = '°' ∨ isPyWs c

/-- Class `[\d\.]`. -/
def isDigDot (c : Char) : Bool := isDigitAscii c ∨ c = '.'

/-- The single-quote class of the DMS pattern, written via the code
point 39 of the quote character. -/
def isQuoteWs (c : Char) : Bool := c = Char.ofNat 39 ∨ isPyWs c

/-- The DMS pattern of line 93 (degree/minute/second magnitudes with
optional hemisphere letters for both axes, a lazy gap in between),
compiled for the engine (searched with `re.IGNORECASE | re.DOTALL`). -/
def reDms : RE :=
  seqs
    [RE.grp 1 (RE.rep isDigitAscii 1 3), RE.cls isDegWs, RE.star isPyWs,
     RE.grp 2 (RE.rep isDigitAscii 1 2), RE.opt (RE.cls isQuoteWs), RE.star isPyWs,
     RE.grp 3 (seqs [RE.cls isDigDot, RE.star isDigDot]), RE.opt (chr '"'), RE.star isPyWs,
     RE.opt (RE.grp 4 (RE.cls (fun c => asciiLower c = 'n' ∨ asciiLower c = 's'))),
     RE.lstar (fun _ => true),
     RE.grp 5 (RE.rep isDigitAscii 1 3), RE.cls isDegWs, RE.star isPyWs,
     RE.grp 6 (RE.rep isDigitAscii 1 2), RE.opt (RE.cls isQuoteWs), RE.star isPyWs,
     RE.grp 7 (seqs [RE.cls isDigDot, RE.star isDigDot]), RE.opt (chr '"'), RE.star isPyWs,
     RE.opt (RE.grp 8 (RE.cls (fun c => asciiLower c = 'e' ∨ asciiLower c = 'w')))]

/-- Python `float()` on a `[\d\.]+` capture: at most one dot and at
least one digit, as an exact rational. -/
def pyFloat (cs : List Char) : Option ℚ :=
  if cs.all isDigDot ∧ (cs.filter (fun c => c = '.')).length ≤ 1 ∧ cs.any isDigitAscii then
    let ip := cs.takeWhile isDigitAscii
    let rest := cs.dropWhile isDigitAscii
    let fp := match rest with
      | '.' :: f => f
      | _ => []
    some ((natOfDigits ip : ℚ) + (natOfDigits fp : ℚ) / ((10 : ℚ) ^ fp.length))
  else none

/-- Render a rational with six decimals, rounding half to even.  This
models CPython's `f"{x:.6f}"` on the exact value; IEEE-754 double
rounding in the source can differ from the exact rational in the last
printed digit, which no claim in this development depends on. -/
def ratFmt6 (q : ℚ) : String :=
  let sgn := if q < 0 then "-" else ""
  let a := |q| * 1000000
  let fl := ⌊a⌋.toNat
  let frac := a - (fl : ℚ)
  let n := if frac > 1/2 then fl + 1
           else if frac < 1/2 then fl
           else if fl % 2 = 0 then fl else fl + 1
  sgn ++ toString (n / 1000000) ++ "." ++
    (let f := n % 1000000
     let s := toString f
     String.mk (List.replicate (6 - s.length) '0') ++ s)

/-- The DMS arithmetic of lines 96-103: degrees + minutes/60 +
seconds/3600, negated when the hemisphere letter (default `defLetter`
when the group is absent) is `negLetter` (south / west). -/
def dmsValue (gdeg gmin gsec : List Char) (dir : Option (List Char))
    (defLetter negLetter : Char) : Option ℚ :=
  match pyFloat gdeg, pyFloat gmin, pyFloat gsec with
  | some d, some mi, some se =>
      let v := d + mi / 60 + se / 3600
      let dc := match dir with
        | some (c :: _) => asciiLower c
        | _ => asciiLower defLetter
      some (if dc = asciiLower negLetter then -v else v)
  | _, _, _ => none

/-- `extract_coordinates` (data_parser.py lines 78-106): strip the text,
try the decimal pair (returning the two captures verbatim), then the
DMS pattern (converting to signed decimal degrees, six decimals);
`("N/A", "N/A")` when neither matches or conversion fails. -/
def extract_coordinates (text : String) : String × String :=
  if text = "" then ("N/A", "N/A")
  else
    let t := pyStrip text.data
    match decSearch t with
    | some (a, b) => (String.mk a, String.mk b)
    | none =>
        match research reDms t with
        | some (_, caps) =>
            match capGet caps 1, capGet caps 2, capGet caps 3,
                  capGet caps 5, capGet caps 6, capGet caps 7 with
            | some g1, some g2, some g3, some g5, some g6, some g7 =>
                match dmsValue g1 g2 g3 (capGet caps 4) 'S' 'S',
                      dmsValue g5 g6 g7 (capGet caps 8) 'E' 'W' with
                | some la, some lo => (ratFmt6 la, ratFmt6 lo)
                | _, _ => ("N/A", "N/A")
            | _, _, _, _, _, _ => ("N/A", "N/A")
        | none => ("N/A", "N/A")

/-! ### The search oracle and `find_first` (data_parser.py lines 193-224)

`re.search` calls whose pattern is configuration-like (the cascades fed
to `find_first`, and the direct searches in the record assembler) are
routed through an abstract oracle: `SearchOutcome.invalid` models a
pattern that raises `re.error`, `nomatch` a `None` result, and `found`
a match object (`group(0)` plus the capture groups in index order,
`none` for an unmatched group).  Structural theorems about the record
assembler quantify over every oracle; concrete claims instantiate the
oracle with `reSearchImpl` below, which implements the patterns those
claims exercise with the engine. -/

inductive SearchOutcome where
  | invalid : SearchOutcome
  | nomatch : SearchOutcome
  | found : String → List (Option String) → SearchOutcome

/-- The type of `re.search(pattern, text, FLAGS)` oracles. -/
def Search : Type := String → String → SearchOutcome

/-- Match-object result policy of `find_first` (lines 215-223): first
truthy group with nonempty strip, else the whole match, whitespace
collapsed. -/
def matchResult (whole : String) (groups : List (Option String)) : String :=
  if groups = [] then cleanWs whole
  else
    match groups.find? (fun g => match g with
      | some s => ¬ s = "" ∧ ¬ pyStripStr s = ""
      | none => false) with
    | some (some g) => cleanWs g
    | _ => cleanWs whole

/-- The cascade loop of `find_first` (lines 209-224). -/
def ffLoop (search : Search) (text : String) : List String → String
  | [] => "N/A"
  | p :: ps =>
      match search p text with
      | .invalid => ffLoop search text ps
      | .nomatch => ffLoop search text ps
      | .found whole groups => matchResult whole groups

/-- `find_first` (data_parser.py lines 193-224): sentinel on empty
text; drop any pattern equal to the text itself (the sanitization of
line 207; the `isinstance` guard is vacuous for Lean strings); then try
the remaining patterns in order. -/
def find_first (search : Search) (patterns : List String) (text : String) : String :=
  if text = "" then "N/A"
  else ffLoop search text (patterns.filter (fun p => ¬ p = text))

/-- The claim's cascade contract, written from the spec's words (spec
section 4.1): iterate the given rules in order; a syntactically invalid
rule is skipped; the first rule with a match returns its first capture
group with non-empty trimmed content, else the whole match, whitespace
collapsed; the sentinel when no rule matches or the text is empty.
This definition follows the specification text and is compared with the
source-derived `find_first` in the C9 theorems. -/
def findFirstSpecLoop (search : Search) (text : String) : List String → String
  | [] => "N/A"
  | p :: ps =>
      match search p text with
      | .invalid => findFirstSpecLoop search text ps
      | .nomatch => findFirstSpecLoop search text ps
      | .found whole groups => matchResult whole groups

/-- Spec-side cascade resolver (see `findFirstSpecLoop`). -/
def findFirstSpec (search : Search) (patterns : List String) (text : String) : String :=
  if text = "" then "N/A"
  else findFirstSpecLoop search text patterns

/-- Group `i` (0-based) of a match outcome's group list. -/
def groupAt (gs : List (Option String)) (i : Nat) : Option String :=
  (gs.get? i).join

/-- `_clean_whitespace` lifted to an optional group, followed by the
`_safe` treatment of `None` (an unmatched group degrades to the
sentinel once `_safe` is applied, which is how every caller uses it). -/
def cleanOpt (g : Option String) : String :=
  match g with
  | some s => cleanWs s
  | none => "N/A"

/-! ### `extract_plot_area`, `extract_bedrooms`, `extract_parking`,
`extract_valuer` (data_parser.py lines 111-188), oracle-parameterized -/

/-- Conversion factor 1 acre = 0.404686 ha (data_parser.py lines 123/126). -/
def acreHa : ℚ := 404686 / 1000000

/-- `extract_plot_area` (lines 111-130).  The float arithmetic of the
conversion branch is modelled with exact rationals and six-decimal
half-even rounding (see `ratFmt6`); a group that `float()` rejects
makes the whole `try` block a no-op, as in the source. -/
def extract_plot_area (search : Search) (text : String) : String × String :=
  if text = "" then ("N/A", "N/A")
  else
    let ha := match search "([\\d\\.]+)\\s*(?:hectares|hectare|ha)\\b" text with
      | .found _ gs => (groupAt gs 0).getD "N/A"
      | _ => "N/A"
    let ac := match search "([\\d\\.]+)\\s*(?:acres|acre)\\b" text with
      | .found _ gs => (groupAt gs 0).getD "N/A"
      | _ => "N/A"
    if ha = "N/A" ∧ ¬ ac = "N/A" then
      match pyFloat ac.data with
      | some q => (ratFmt6 (q * acreHa), ac)
      | none => (ha, ac)
    else if ac = "N/A" ∧ ¬ ha = "N/A" then
      match pyFloat ha.data with
      | some q => (ha, ratFmt6 (q / acreHa))
      | none => (ha, ac)
    else (ha, ac)

/-- The `words_to_nums` table of line 145 (`dict.get` with default). -/
def wordsToNums10 (s : String) : String :=
  if s = "one" then "1" else if s = "two" then "2" else if s = "three" then "3"
  else if s = "four" then "4" else if s = "five" then "5" else if s = "six" then "6"
  else if s = "seven" then "7" else if s = "eight" then "8" else if s = "nine" then "9"
  else if s = "ten" then "10" else "N/A"

/-- `extract_bedrooms` (lines 135-149). -/
def extract_bedrooms (search : Search) (text : String) : String × String :=
  if text = "" then ("N/A", "No")
  else
    let bedrooms :=
      match search "(\\b\\d\x7b1,2\x7d\\b)\\s*(?:-)?\\s*(?:bedroom|bedrooms|bedroomed)\\b" text with
      | .found _ gs => (groupAt gs 0).getD "N/A"
      | _ =>
          match search "\\b(one|two|three|four|five|six|seven|eight|nine|ten)\\b\\s*(?:-)?\\s*(?:bedroom|bedrooms|bedroomed)\\b" text with
          | .found _ gs =>
              match groupAt gs 0 with
              | some g => wordsToNums10 (String.mk (g.data.map asciiLower))
              | none => "N/A"
          | _ => "N/A"
    let master :=
      match search "master.*en-?suite|master\\s+en[-\\s]?suite|en-?suite\\s+master" text with
      | .found _ _ => "Yes"
      | _ => "No"
    (safeVal bedrooms, master)

/-- The `words` table of line 162. -/
def wordsToNums5 (s : String) : String :=
  if s = "one" then "1" else if s = "two" then "2" else if s = "three" then "3"
  else if s = "four" then "4" else if s = "five" then "5" else "N/A"

/-- `extract_parking` (lines 151-164). -/
def extract_parking (search : Search) (text : String) : String :=
  if text = "" then "N/A"
  else
    match search "(\\d\x7b1,2\x7d)\\s*(?:No\\.?|nos\\.?|parking|parking lots|parking spaces|car spaces|car park)\\b" text with
    | .found _ gs => (groupAt gs 0).getD "N/A"
    | _ =>
        match search "\\b(one|two|three|four|five)\\b\\s*(?:parking|car space|car spaces|parking lots)\\b" text with
        | .found _ gs =>
            match groupAt gs 0 with
            | some g => wordsToNums5 (String.mk (g.data.map asciiLower))
            | none => "N/A"
        | _ => "N/A"

/-- `extract_valuer` (lines 166-188). -/
def extract_valuer (search : Search) (text : String) : String × String × String :=
  if text = "" then ("N/A", "N/A", "N/A")
  else
    let company :=
      match search "For and on behalf of\\s*([A-Za-z0-9 &\\.\\-]+(?:Limited|Ltd|Company))" text with
      | .found _ gs => cleanOpt (groupAt gs 0)
      | _ => "N/A"
    match search "\\n\\s*([A-Z][A-Za-z\\s\\.\\-]\x7b3,60\x7d)\\s*\\n\\s*([A-Za-z0-9\\(\\)\\.,\\s]\x7b2,80\x7d(?:Hon|Hons|BA|BSc|B\\.A|B\\.Sc|Bachelor|Registered|MIS|GMISK))" text with
    | .found _ gs =>
        (safeVal (cleanOpt (groupAt gs 0)), safeVal (cleanOpt (groupAt gs 1)), safeVal company)
    | _ =>
        let name1 :=
          match search "Registered & Practicing Valuer\\s*[\\r\\n]+([A-Z][A-Za-z\\s\\.\\-]\x7b3,60\x7d)" text with
          | .found _ gs => cleanOpt (groupAt gs 0)
          | _ => "N/A"
        match search "([A-Z][A-Za-z\\s\\.\\-]\x7b3,60\x7d)\\s*[,;\\-]?\\s*(BA|B\\.A|BSc|B\\.Sc|Bachelor of Real Estate|Hons|MIS|GMISK|MISK)" text with
        | .found _ gs =>
            (safeVal (cleanOpt (groupAt gs 0)), safeVal (cleanOpt (groupAt gs 1)), safeVal company)
        | _ => (safeVal name1, safeVal "N/A", safeVal company)

/-! ### County resolution (data_parser.py lines 299-304) -/

/-- Pattern string `([A-Za-z\s]{3,30}County)`. -/
def cPat1 : String := "([A-Za-z\\s]\x7b3,30\x7dCounty)"

/-- Pattern string `([A-Za-z\s]{2,30}\s+County)`. -/
def cPat2 : String := "([A-Za-z\\s]\x7b2,30\x7d\\s+County)"

/-- Pattern string `(NAIROBI COUNTY)`. -/
def cPat3 : String := "(NAIROBI COUNTY)"

/-- Pattern string `([A-Za-z]{3,30})\s+COUNTY` (the fallback of line 302). -/
def cPatFb : String := "([A-Za-z]\x7b3,30\x7d)\\s+COUNTY"

/-- Class `[A-Za-z\s]`. -/
def isAlphaWs (c : Char) : Bool := isAlphaAscii c ∨ isPyWs c

/-- Engine compilation of `cPat1`. -/
def reCounty1 : RE := RE.grp 1 (seqs [RE.rep isAlphaWs 3 30, lits "County"])

/-- Engine compilation of `cPat2`. -/
def reCounty2 : RE := RE.grp 1 (seqs [RE.rep isAlphaWs 2 30, wsPlus, lits "County"])

/-- Engine compilation of `cPat3`. -/
def reCounty3 : RE := RE.grp 1 (lits "NAIROBI COUNTY")

/-- Engine compilation of `cPatFb`. -/
def reCountyFb : RE := seqs [RE.grp 1 (RE.rep isAlphaAscii 3 30), wsPlus, lits "COUNTY"]

/-- ASCII upper-casing. -/
def asciiUpper (c : Char) : Char :=
  if 'a' ≤ c ∧ c ≤ 'z' then Char.ofNat (c.toNat - 32) else c

/-- Helper for `pyTitle`: the flag records whether the previous
character was a letter. -/
def pyTitleAux : Bool → List Char → List Char
  | _, [] => []
  | prev, c :: t =>
      if isAlphaAscii c then
        (if prev then asciiLower c else asciiUpper c) :: pyTitleAux true t
      else c :: pyTitleAux false t

/-- Python `str.title()` for ASCII text. -/
def pyTitle (cs : List Char) : List Char := pyTitleAux false cs

/-- County resolution (data_parser.py lines 300-303): the three-pattern
cascade, then the upper-case fallback with `.title() + " County"`.
(The subsequent assignment applies `_safe`.) -/
def county_resolution (search : Search) (text : String) : String :=
  let county := find_first search [cPat1, cPat2, cPat3] text
  if county = "N/A" then
    match search cPatFb text with
    | .found _ gs =>
        match groupAt gs 0 with
        | some g => String.mk (pyTitle g.data) ++ " County"
        | none => "N/A"
    | _ => "N/A"
  else county

/-- Engine-backed outcome for a pattern with `ng` capture groups. -/
def engineOutcome (r : RE) (ng : Nat) (text : String) : SearchOutcome :=
  match research r text.data with
  | none => .nomatch
  | some (whole, caps) =>
      .found (String.mk whole)
        ((List.range ng).map (fun i => (capGet caps (i + 1)).map String.mk))

/-- Concrete oracle used to instantiate the abstract `Search` in the
claims that exercise specific patterns: the county patterns are
implemented with the engine, as is the literal pattern `abc` used by
the C9 counterexample.  Patterns outside this table answer `invalid`;
no theorem depends on their behaviour (record-assembler theorems
quantify over every oracle). -/
def reSearchImpl : Search := fun pat text =>
  if pat = cPat1 then engineOutcome reCounty1 1 text
  else if pat = cPat2 then engineOutcome reCounty2 1 text
  else if pat = cPat3 then engineOutcome reCounty3 1 text
  else if pat = cPatFb then engineOutcome reCountyFb 1 text
  else if pat = "abc" then engineOutcome (lits "abc") 0 text
  else .invalid

/-! ### The schema (config.py lines 13-74) and the record assembler
(data_parser.py lines 229-385) -/

/-- `COLUMN_HEADERS` (config.py lines 13-74). -/
def COLUMN_HEADERS : List String :=
  ["FileName", "Our_Ref", "Valuer_Name", "Valuer_Qualifications", "Valuer_Company",
   "Market_Value_Kshs", "Insurance_Value_Kshs", "Forced_Sale_Value_Kshs", "Open_Market_Rental_Value_Kshs",
   "Valuation_Date", "Inspection_Date", "Lease_Start_Date", "Transfer_Date", "Consent_To_Transfer_Date",
   "LR_No", "IR_No", "Title_No", "Apartment_No", "Unit_Type", "Block", "Floor_Level", "Estate_Name",
   "County", "Area_Neighborhood", "Road_Access_Description", "Distance_To_Landmark",
   "Google_Coordinates_Lat", "Google_Coordinates_Lon",
   "Built_Up_Area_SqFt", "Plot_Area_Ha", "Plot_Area_Acres", "Bedrooms", "Master_EnSuite",
   "Parking_Spaces", "Balcony_Present", "Accommodation_Summary", "Condition", "Occupancy_Status",
   "Internal_Finishes", "Tenure", "Lease_Term_Remaining", "Encumbrances", "Registered_Proprietor",
   "Page_Count", "Notes"]

/-- The key list of the dict comprehension in `extract_data_points`
(data_parser.py lines 235-244). -/
def initKeys : List String :=
  ["FileName", "Our_Ref", "Valuer_Name", "Valuer_Qualifications", "Valuer_Company",
   "Market_Value_Kshs", "Insurance_Value_Kshs", "Forced_Sale_Value_Kshs", "Open_Market_Rental_Value_Kshs",
   "Valuation_Date", "Inspection_Date", "Lease_Start_Date", "Transfer_Date", "Consent_To_Transfer_Date",
   "LR_No", "IR_No", "Title_No", "Apartment_No", "Unit_Type", "Block", "Floor_Level", "Estate_Name",
   "County", "Area_Neighborhood", "Road_Access_Description", "Distance_To_Landmark",
   "Google_Coordinates_Lat", "Google_Coordinates_Lon",
   "Built_Up_Area_SqFt", "Plot_Area_Ha", "Plot_Area_Acres", "Bedrooms", "Master_EnSuite",
   "Parking_Spaces", "Balcony_Present", "Accommodation_Summary", "Condition", "Occupancy_Status",
   "Internal_Finishes", "Tenure", "Lease_Term_Remaining", "Encumbrances", "Registered_Proprietor",
   "Page_Count", "Notes"]

/-- Python-dict assignment on an insertion-ordered association list:
update the first occurrence in place, else append. -/
def setKey (k v : String) : List (String × String) → List (String × String)
  | [] => [(k, v)]
  | (k', v') :: rest => if k = k' then (k, v) :: rest else (k', v') :: setKey k v rest

/-- Lookup in an insertion-ordered association list (`data[k]`). -/
def getVal (k : String) : List (String × String) → Option String
  | [] => none
  | (k', v) :: rest => if k = k' then some v else getVal k rest

/-- `os.path.basename`, POSIX form: the part after the last slash. -/
def basenameAux : List Char → List Char → List Char
  | acc, [] => acc.reverse
  | _, '/' :: t => basenameAux [] t
  | acc, c :: t => basenameAux (c :: acc) t

/-- `os.path.basename` on a `String`. -/
def basename (p : String) : String := String.mk (basenameAux [] p.data)

/-- The page-break marker inserted by `pdf_reader` (line 379). -/
def pageBreakStr : String := "--- PAGE BREAK ---"

/-- The finish-token table of line 351. -/
def internalTokens : List String :=
  ["ceramic", "tiles", "wardrobes", "cupboards", "stainless steel sink",
   "timber", "wooden", "ceramic worktops"]

/-- The field assignments of `extract_data_points` (data_parser.py
lines 246-379), in source order, as `(key, value)` pairs.  Each value
term is the translation of the corresponding assignment's right-hand
side; `re.search` calls go through the oracle. -/
def assignments (search : Search) (text filename : String) : List (String × String) :=
  let insp_raw := find_first search
    ["inspected for valuation on\\s*([^\\n\\r]\x7b1,60\x7d)",
     "DATE OF INSPECTION[:\\s]*([^\\n\\r]\x7b1,60\x7d)"] text
  let lease_raw := find_first search
    ["with effect from\\s*([^\\n\\r]\x7b1,40\x7d)",
     "with effect from\\s*([\\d\\/\\-\\s]\x7b6,12\x7d)"] text
  let transfer_raw := find_first search
    ["Date of Transfer\\s*[:\\s]*([^\\n\\r]\x7b1,60\x7d)",
     "Date of Transfer[^\\n\\r]\x7b1,60\x7d([\\d\\/\\-\\s\\w,]+)"] text
  let consent_raw := find_first search
    ["Consent to Transfer\\s*[:\\s]*([^\\n\\r]\x7b1,60\x7d)",
     "CONSENT TO TRANSFER[^\\n\\r]\x7b1,60\x7d([\\d\\/\\-\\s\\w,]+)"] text
  let gblock := find_first search
    ["Google\\s+coordinates[:\\s]*([^\\n\\r]\x7b0,120\x7d)",
     "Google Map Excerpt[:\\s]*([^\\n\\r]\x7b0,120\x7d)",
     "Google coordinates[^\\n\\r]\x7b0,120\x7d"] text
  let latlon := extract_coordinates (if ¬ gblock = "N/A" then gblock else text)
  let haAc := extract_plot_area search text
  let bedsMaster := extract_bedrooms search text
  let valuer := extract_valuer search text
  let lower_text := String.mk (text.data.map asciiLower)
  let finishes := internalTokens.filter (fun tok => containsSub lower_text.data tok.data)
  [("FileName", filename),
   ("Our_Ref", safeVal (find_first search
      ["Our Ref[:\\s]*([\\w\\/\\-\\.\\d]+)", "Reference[:\\s]*([\\w\\/\\-\\.\\d]+)"] text)),
   ("Market_Value_Kshs", normalize_number (find_first search
      ["(?:Current\\s+)?Market\\s+Value[^\\d\\n\\r]\x7b0,40\x7d([\\d\\.,\\/=\\sKShskshs]+)",
       "Market Value[^\\d\\n\\r]\x7b0,40\x7dKShs\\.?\\s*([\\d\\.,\\/=\\s]+)"] text)),
   ("Insurance_Value_Kshs", normalize_number (find_first search
      ["Insurance Value[^\\d\\n\\r]\x7b0,40\x7dKShs\\.?\\s*([\\d\\.,\\/=\\s]+)",
       "Insurance\\s*Value[^\\d\\n\\r]\x7b0,40\x7d([\\d\\.,\\/=\\s]+)"] text)),
   ("Forced_Sale_Value_Kshs", normalize_number (find_first search
      ["Forced Sale Value[^\\d]\x7b0,40\x7d([\\d\\.,\\/=\\sKShs]+)",
       "Forced Sale[^\\d]\x7b0,40\x7d([\\d\\.,\\/=\\sKShs]+)"] text)),
   ("Open_Market_Rental_Value_Kshs", normalize_number (find_first search
      ["Open Market Rental Value[^\\d]\x7b0,40\x7d([\\d\\.,\\/=\\sKShs]+)",
       "Rental Value[^\\d]\x7b0,40\x7d([\\d\\.,\\/=\\sKShs]+)"] text)),
   ("Valuation_Date", fuzzy_date_search text),
   ("Inspection_Date", if ¬ insp_raw = "N/A" then fuzzy_date_search insp_raw else "N/A"),
   ("Lease_Start_Date", if ¬ lease_raw = "N/A" then fuzzy_date_search lease_raw else "N/A"),
   ("Transfer_Date", if ¬ transfer_raw = "N/A" then fuzzy_date_search transfer_raw else "N/A"),
   ("Consent_To_Transfer_Date", if ¬ consent_raw = "N/A" then fuzzy_date_search consent_raw else "N/A"),
   ("LR_No", safeVal (find_first search
      ["(?:L\\.?R\\.?\\s*(?:No|Number|NO|NUMBER)\\.?:?)\\s*([\\d\\/\\-]+)",
       "LR\\s*NO\\.?\\s*([\\d\\/\\-]+)"] text)),
   ("IR_No", safeVal (find_first search
      ["(?:I\\.?R\\.?\\s*(?:No|Number|NO|NUMBER)\\.?:?)\\s*([\\d\\/\\-]+)",
       "I\\.R\\. Number[:\\s]*([\\d\\/\\-]+)"] text)),
   ("Title_No", safeVal (find_first search
      ["TITLE\\s*NO\\.?:?\\s*([\\d\\/\\-]+)", "Title No[:\\s]*([\\d\\/\\-]+)"] text)),
   ("Apartment_No", safeVal (find_first search
      ["APARTMENT\\s*NO\\.?\\s*[:\\-]?\\s*([A-Z0-9\\-\\s\\(\\)]+)",
       "Flat No\\.?\\s*([A-Z0-9\\-\\s\\(\\)]+)"] text)),
   ("Unit_Type", safeVal (find_first search ["\\b(Apartment|Maisonette|Shop|Flat)\\b"] text)),
   ("Block", safeVal (find_first search
      ["Block\\s*([A-Z0-9\\-]+)", "Block\\s*([A-Z])\\b"] text)),
   ("Floor_Level", safeVal (find_first search
      ["(Ground|First|Second|Third|Basement|Upper)\\s+floor",
       "on the\\s+(ground|first|second|third)\\s+floor"] text)),
   ("Estate_Name", safeVal (find_first search
      ["(SIMBA VILLAS)",
       "Estate\\s*[:\\s]*([A-Za-z0-9\\s]+(?:VILLAS|ESTATE|COURT|GARDENS)?)",
       "([\\w\\s]+(?:VILLAS|ESTATE|COURT|MAISONETTES|COMPLEX))"] text)),
   ("County", safeVal (county_resolution search text)),
   ("Area_Neighborhood", safeVal (find_first search
      ["Embakasi Area|([A-Za-z\\s]+ Area)", "Area[:\\s]*([A-Za-z\\s]+)"] text)),
   ("Road_Access_Description", safeVal (find_first search
      ["approximately\\s*[\\d,\\.]+\\s*meters\\s*off\\s*([A-Za-z0-9\\s]+(?:Road|Rd))",
       "along\\s*([A-Za-z0-9\\s]+(?:Road|Rd))",
       "situated along\\s*([A-Za-z0-9\\s]+(?:Road|Rd))"] text)),
   ("Distance_To_Landmark", safeVal (find_first search
      ["([\\d,\\.]+\\s*meters?\\s*to\\s*(?:the\\s*)?[A-Za-z0-9\\s,]+)",
       "([\\d,\\.]+\\s*m(?:eters?)\\s*(?:to|from)\\s*[A-Za-z0-9\\s,]+)"] text)),
   ("Google_Coordinates_Lat", safeVal latlon.1),
   ("Google_Coordinates_Lon", safeVal latlon.2),
   ("Built_Up_Area_SqFt",
     match search "(?:gross plinth area is approximately|built[- ]?up area is approximately|BUILT UP AREA[:\\s]*)\\s*([\\d,\\.]+)\\s*(?:square feet|sq\\. ft|sq ft|square\\s*feet)" text with
     | .found _ gs =>
         (match groupAt gs 0 with
          | some g => String.mk ((cleanWs g).data.filter (fun c => ¬ c = ','))
          | none => "N/A")
     | _ =>
         match search "(\\d\x7b3,5\x7d)\\s*(?:sq\\.?\\s*ft|square\\s*feet)" text with
         | .found _ gs => (groupAt gs 0).getD "N/A"
         | _ => "N/A"),
   ("Plot_Area_Ha", safeVal haAc.1),
   ("Plot_Area_Acres", safeVal haAc.2),
   ("Bedrooms", safeVal bedsMaster.1),
   ("Master_EnSuite", safeVal bedsMaster.2),
   ("Parking_Spaces", safeVal (extract_parking search text)),
   ("Balcony_Present",
     match search "\\bbalcony\\b" text with
     | .found _ _ => "Yes"
     | _ => "No"),
   ("Accommodation_Summary", safeVal (find_first search
      ["Accommodation comprises\\s*[:\\-]?\\s*(.+?)(?:\\.\\s|$|\\n--- PAGE BREAK ---)",
       "Accommodation comprises[^\\n\\r]+([^\\n\\r]+)"] text)),
   ("Condition", safeVal (find_first search
      ["(?:in a|is in a)\\s*(good|fair|poor|excellent)\\s*state",
       "(?:The apartment is in a|The property is in a)\\s*(good|fair|poor|excellent)\\s*state"] text)),
   ("Occupancy_Status", safeVal (find_first search
      ["(owner-occupied|owner occupied|tenant-occupied|tenant occupied|vacant|occupied)"] text)),
   ("Internal_Finishes",
     if finishes = [] then "N/A" else safeVal (String.intercalate ", " finishes)),
   ("Tenure", safeVal (find_first search
      ["(leasehold interest|freehold interest|leasehold|freehold)"] text)),
   ("Lease_Term_Remaining",
     match search "(\\d\x7b1,3\x7d\\s*years)\\s*with effect from\\s*([^\\n\\r]\x7b1,30\x7d)" text with
     | .found _ gs =>
         (match groupAt gs 0, groupAt gs 1 with
          | some g1, some g2 => pyStripStr g1 ++ " from " ++ fuzzy_date_search g2
          | _, _ => "N/A")
     | _ => "N/A"),
   ("Encumbrances", safeVal (find_first search
      ["Encumbrances\\s*[:\\s]*([^\\n\\r]\x7b1,200\x7d)",
       "Encumbrances\\s*([^\\n\\r]\x7b1,200\x7d)"] text)),
   ("Registered_Proprietor", safeVal (find_first search
      ["registered in the names? of\\s*([A-Za-z0-9\\s,\\.&\\-]+)\\.",
       "The subject lease is registered in the names? of\\s*([A-Za-z0-9\\s,\\.&\\-]+)\\."] text)),
   ("Valuer_Name", safeVal valuer.1),
   ("Valuer_Qualifications", safeVal valuer.2.1),
   ("Valuer_Company", safeVal valuer.2.2),
   ("Page_Count",
     if pyStrip text.data = [] then "0"
     else toString (countSub text.data pageBreakStr.data + 1))]

/-- The record after the field assignments of lines 246-379: the
sentinel-initialized dict of lines 235-244, updated by `assignments`
in source order. -/
def assembleBase (search : Search) (text filename : String) : List (String × String) :=
  (assignments search text filename).foldl (fun d kv => setKey kv.1 kv.2 d)
    (initKeys.map (fun k => (k, "N/A")))

/-- The diagnostic `Notes` value of lines 382-383. -/
def notesFor (data1 : List (String × String)) : String :=
  "Missing fields count: " ++
    toString (data1.filter
      (fun kv => (kv.2 = "" ∨ kv.2 = "N/A") ∧ ¬ kv.1 = "Notes" ∧ ¬ kv.1 = "FileName")).length

/-- `extract_data_points` (data_parser.py lines 229-385): initialize
every schema key to the sentinel, run the field assignments in source
order, then write the diagnostic `Notes` field from the count of
missing fields.  (`full_text or ""` is the identity on strings.) -/
def extract_data_points (search : Search) (full_text file_path : String) :
    List (String × String) :=
  let filename := if ¬ file_path = "" then basename file_path else "N/A"
  let data1 := assembleBase search full_text filename
  setKey "Notes" (notesFor data1) data1

/-! ### Auxiliary definitions used by the theorems -/

/-- The ten ASCII digit characters. -/
def digitChars : List Char := ['0', '1', '2', '3', '4', '5', '6', '7', '8', '9']

/-- Head of `r` is not a digit (vacuous for empty `r`): the condition
under which the greedy digit munch of the decimal-coordinate matcher
stops exactly at a token boundary. -/
def headNonDigit (r : List Char) : Prop :=
  ∀ c, r.head? = some c → isDigitAscii c = false

/-- The keys of `assignments`, in source order. -/
def assignKeys : List String :=
  ["FileName", "Our_Ref", "Market_Value_Kshs", "Insurance_Value_Kshs", "Forced_Sale_Value_Kshs",
   "Open_Market_Rental_Value_Kshs", "Valuation_Date", "Inspection_Date", "Lease_Start_Date",
   "Transfer_Date", "Consent_To_Transfer_Date", "LR_No", "IR_No", "Title_No", "Apartment_No",
   "Unit_Type", "Block", "Floor_Level", "Estate_Name", "County", "Area_Neighborhood",
   "Road_Access_Description", "Distance_To_Landmark", "Google_Coordinates_Lat", "Google_Coordinates_Lon",
   "Built_Up_Area_SqFt", "Plot_Area_Ha", "Plot_Area_Acres", "Bedrooms", "Master_EnSuite",
   "Parking_Spaces", "Balcony_Present", "Accommodation_Summary", "Condition", "Occupancy_Status",
   "Internal_Finishes", "Tenure", "Lease_Term_Remaining", "Encumbrances", "Registered_Proprietor",
   "Valuer_Name", "Valuer_Qualifications", "Valuer_Company", "Page_Count"]

/-- Test document for the signature-anchored-date claim: the anchor
phrase `practicing valuer` occurs exactly once near the end, followed
two lines later by `Date: 11th March 2025`; a valuer's name appears
earlier in the body on a line with no attached date; but an unrelated
inspection date appears earlier still. -/
def c3doc : String :=
  "The property was inspected on 5th January 2024.\nMr. John Mwangi is a valuer known in the area.\npracticing valuer\nP.O. Box 123\nDate: 11th March 2025\n"

/-- The same document without the earlier date-shaped token. -/
def c3doc2 : String :=
  "Mr. John Mwangi is a valuer known in the area.\npracticing valuer\nP.O. Box 123\nDate: 11th March 2025\n"

/-! ## Theorems

Helper lemmas first, then one theorem per claim (with counterexamples,
amended statements, and witnesses where applicable). -/

/-! ### Shared helper lemmas -/

/-- Facts about the digit characters, settled by evaluation. -/
theorem digit_facts : ∀ c ∈ digitChars, isDigitAscii c = true ∧ ¬ asciiLower c = 'k' ∧
    isPyWs c = false ∧ ¬ c = '-' ∧ ¬ c = '/' ∧ ¬ c = '=' ∧ ¬ c = ',' ∧ ¬ c = '.' := by decide

/-- `setKey` on a present key preserves the key list. -/
theorem keysOf_setKey (k v : String) : ∀ (l : List (String × String)), k ∈ l.map Prod.fst →
    (setKey k v l).map Prod.fst = l.map Prod.fst := by
  intro l h
  induction l with
  | nil => simp at h
  | cons a rest ih =>
      simp only [setKey]
      by_cases hk : k = a.1
      · simp [hk]
      · simp only [List.map_cons] at h ⊢
        rcases List.mem_cons.mp h with h | h
        · exact absurd h hk
        · simp [hk, ih h]

/-- A fold of `setKey`s over present keys preserves the key list. -/
theorem keysOf_foldl : ∀ (l : List (String × String)) (d : List (String × String)),
    (∀ kv ∈ l, kv.1 ∈ d.map Prod.fst) →
    ((l.foldl (fun d kv => setKey kv.1 kv.2 d) d).map Prod.fst = d.map Prod.fst) := by
  intro l
  induction l with
  | nil => intro d _; rfl
  | cons a rest ih =>
      intro d h
      have ha : a.1 ∈ d.map Prod.fst := h a (by simp)
      have hstep := keysOf_setKey a.1 a.2 d ha
      simp only [List.foldl_cons]
      rw [ih (setKey a.1 a.2 d) (fun kv hkv => by rw [hstep]; exact h kv (by simp [hkv]))]
      exact hstep

/-- Keys of the sentinel-initialized record. -/
theorem keys_init : (initKeys.map fun k => (k, "N/A")).map Prod.fst = initKeys := by decide

/-- The assignment keys, independent of the oracle and the text. -/
theorem assign_keys_eq (s : Search) (t fn : String) :
    (assignments s t fn).map Prod.fst = assignKeys := rfl

/-- The assembled base record has exactly the initial keys, in order. -/
theorem keys_assemble (s : Search) (t fn : String) :
    (assembleBase s t fn).map Prod.fst = initKeys := by
  unfold assembleBase
  rw [keysOf_foldl _ _ ?_, keys_init]
  intro kv hkv
  have h1 : kv.1 ∈ (assignments s t fn).map Prod.fst := List.mem_map_of_mem _ hkv
  rw [assign_keys_eq] at h1
  rw [keys_init]
  revert h1
  have h2 : ∀ x ∈ assignKeys, x ∈ initKeys := by decide
  exact h2 kv.1

/-- The full record has exactly the schema keys, in order. -/
theorem keys_extract (s : Search) (t p : String) :
    (extract_data_points s t p).map Prod.fst = COLUMN_HEADERS := by
  unfold extract_data_points
  rw [keysOf_setKey _ _ _ ?_, keys_assemble]
  · decide
  · rw [keys_assemble]; decide

/-- Reading through `setKey`. -/
theorem getVal_setKey (k k' v : String) : ∀ (l : List (String × String)),
    getVal k (setKey k' v l) = if k = k' then some v else getVal k l := by
  intro l
  induction l with
  | nil => simp only [setKey, getVal]
  | cons a rest ih =>
      simp only [setKey]
      by_cases h1 : k' = a.1
      · by_cases h2 : k = k'
        · simp [getVal, h1, h2]
        · have h3 : ¬ k = a.1 := fun hh => h2 (hh.trans h1.symm)
          simp [getVal, h1, h2, h3]
      · by_cases h2 : k = a.1
        · have h4 : ¬ k = k' := fun hh => h1 (hh.symm.trans h2)
          have h5 : ¬ a.1 = k' := fun hh => h4 (h2.trans hh)
          simp [getVal, h1, h2, h4, h5]
        · simp [getVal, h1, h2, ih]

/-- The `Valuation_Date` field of the assembled base record is the
global fuzzy date search over the whole text (line 268). -/
theorem getVal_assemble_valuation (s : Search) (t fn : String) :
    getVal "Valuation_Date" (assembleBase s t fn) = some (fuzzy_date_search t) := by
  unfold assembleBase assignments
  simp only [List.foldl_cons, List.foldl_nil, getVal_setKey]
  simp

/-- The `Valuation_Date` field of the finished record. -/
theorem getVal_valuation (s : Search) (t p : String) :
    getVal "Valuation_Date" (extract_data_points s t p) = some (fuzzy_date_search t) := by
  unfold extract_data_points
  simp only [getVal_setKey]
  rw [if_neg (by decide)]
  exact getVal_assemble_valuation s t _

/-- The `Page_Count` field of the finished record (line 379). -/
theorem getVal_pagecount (s : Search) (t p : String) :
    getVal "Page_Count" (extract_data_points s t p) =
      some (if pyStrip t.data = [] then "0"
            else toString (countSub t.data pageBreakStr.data + 1)) := by
  unfold extract_data_points
  simp only [getVal_setKey]
  rw [if_neg (by decide)]
  unfold assembleBase assignments
  simp only [List.foldl_cons, List.foldl_nil, getVal_setKey]
  simp

/-- The `County` field of the finished record (lines 300-304). -/
theorem getVal_county (s : Search) (t p : String) :
    getVal "County" (extract_data_points s t p) = some (safeVal (county_resolution s t)) := by
  unfold extract_data_points
  simp only [getVal_setKey]
  rw [if_neg (by decide)]
  unfold assembleBase assignments
  simp only [List.foldl_cons, List.foldl_nil, getVal_setKey]
  simp

/-! ### Helper lemmas for the number-normalizer idempotence -/

/-- Lists that do not start with (case-insensitive) `kshs`. -/
theorem atKshs_of_head (c : Char) (hc : ¬ asciiLower c = 'k') :
    ∀ rest, atKshs (c :: rest) = false := by
  intro rest
  match rest with
  | [] => rfl
  | [_] => rfl
  | [_, _] => rfl
  | c2 :: c3 :: c4 :: r => simp [atKshs, hc]

/-- `subKshs` is the identity on digit strings. -/
theorem subKshsAux_digits : ∀ (fuel : Nat) (cs : List Char),
    (∀ c ∈ cs, c ∈ digitChars) → subKshsAux fuel cs = cs := by
  intro fuel
  induction fuel with
  | zero => intro cs _; rfl
  | succ n ih =>
      intro cs h
      cases cs with
      | nil => rfl
      | cons c rest =>
          have hk : ¬ asciiLower c = 'k' := (digit_facts c (h c (List.mem_cons_self c rest))).2.1
          simp only [subKshsAux, atKshs_of_head c hk rest, Bool.false_eq_true, if_false]
          rw [ih rest (fun x hx => h x (List.mem_cons_of_mem c hx))]

/-- `normalize_number` is the identity on canonical digit-only money
strings (nonempty, digits only, no leading zero except `"0"` itself). -/
theorem money_idem (s : String) (h1 : ¬ s = "")
    (h2 : ∀ c ∈ s.data, c ∈ digitChars)
    (h3 : s.data = ['0'] ∨ ¬ s.data.head? = some '0') :
    normalize_number s = s := by
  have hne : ¬ (s = "" ∨ s = "N/A") := by
    rintro (h | h)
    · exact h1 h
    · have := h2 'N' (by rw [h]; decide)
      revert this; decide
  have hd : s.data ≠ [] := by
    intro hh
    apply h1
    have hmk : String.mk s.data = String.mk [] := by rw [hh]
    cases s; simpa using hmk
  have hsub : subKshs s.data = s.data := subKshsAux_digits _ _ h2
  have hf1 : s.data.filter (fun c => decide ¬ (c = '/' ∨ c = '=')) = s.data :=
    List.filter_eq_self.mpr (fun c hc => by
      have := digit_facts c (h2 c hc)
      simp [this.2.2.2.2.1, this.2.2.2.2.2.1])
  have hf2 : s.data.filter (fun c => decide (isDigitAscii c = true ∨ c = '.' ∨ c = ',')) = s.data :=
    List.filter_eq_self.mpr (fun c hc => by
      have := digit_facts c (h2 c hc)
      simp [this.1])
  have hf3 : s.data.filter (fun c => decide ¬ (c = ',' ∨ c = '.')) = s.data :=
    List.filter_eq_self.mpr (fun c hc => by
      have := digit_facts c (h2 c hc)
      simp [this.2.2.2.2.2.2.1, this.2.2.2.2.2.2.2])
  have hstrip : lstripZero s.data = s.data := by
    rcases h3 with h3 | h3
    · rw [h3]; rfl
    · cases hc : s.data with
      | nil => exact absurd hc hd
      | cons c t =>
          have hc0 : ¬ (c = '0') := by
            intro hh; apply h3; rw [hc, hh]; rfl
          have hdw : List.dropWhile (fun c => decide (c = '0')) (c :: t) = c :: t :=
            List.dropWhile_cons_of_neg (by simp [hc0])
          simp [lstripZero, hdw]
  have hall : s.data.all isDigitAscii = true :=
    List.all_eq_true.mpr (fun c hc => (digit_facts c (h2 c hc)).1)
  simp only [normalize_number, if_neg hne, hsub, hf1, hf2, hf3, if_neg hd, hstrip, hall, if_true]

/-! ### Helper lemmas for the decimal-coordinate idempotence -/

/-- The greedy digit munch stops exactly at a non-digit. -/
theorem munch_append : ∀ (ds : List Char) (n : Nat) (c : Char) (r : List Char),
    (∀ x ∈ ds, x ∈ digitChars) → ds.length ≤ n → isDigitAscii c = false →
    munchDigits n (ds ++ c :: r) = (ds, c :: r) := by
  intro ds
  induction ds with
  | nil =>
      intro n c r _ _ hc
      cases n with
      | zero => rfl
      | succ m => simp [munchDigits, hc]
  | cons d ds' ih =>
      intro n c r h hlen hc
      cases n with
      | zero => simp at hlen
      | succ m =>
          have hd : isDigitAscii d = true := (digit_facts d (h d (List.mem_cons_self d ds'))).1
          simp only [List.cons_append, munchDigits, hd, if_true, List.append_eq]
          rw [ih m c r (fun x hx => h x (List.mem_cons_of_mem d hx)) (Nat.le_of_succ_le_succ hlen) hc]

/-- The greedy digit munch consumes a whole digit string. -/
theorem munch_all : ∀ (ds : List Char) (n : Nat),
    (∀ x ∈ ds, x ∈ digitChars) → ds.length ≤ n → munchDigits n ds = (ds, []) := by
  intro ds
  induction ds with
  | nil =>
      intro n _ _
      cases n with
      | zero => rfl
      | succ m => rfl
  | cons d ds' ih =>
      intro n h hlen
      cases n with
      | zero => simp at hlen
      | succ m =>
          have hd : isDigitAscii d = true := (digit_facts d (h d (List.mem_cons_self d ds'))).1
          simp only [munchDigits, hd, if_true, List.append_eq]
          rw [ih m (fun x hx => h x (List.mem_cons_of_mem d hx)) (Nat.le_of_succ_le_succ hlen)]

/-- `decTokBody` on a well-formed token followed by a non-digit. -/
theorem decTokBody_spec (sign ds fs r : List Char)
    (hd : ds ≠ []) (hl : ds.length ≤ 3)
    (ha : ∀ x ∈ ds, x ∈ digitChars) (hf : fs ≠ []) (hb : ∀ x ∈ fs, x ∈ digitChars)
    (hr : headNonDigit r) :
    decTokBody sign (ds ++ '.' :: (fs ++ r)) = some (sign ++ ds ++ '.' :: fs, r) := by
  have hmunch1 : munchDigits 3 (ds ++ '.' :: (fs ++ r)) = (ds, '.' :: (fs ++ r)) :=
    munch_append ds 3 '.' (fs ++ r) ha hl (by decide)
  have hmunch2 : munchDigits (fs ++ r).length (fs ++ r) = (fs, r) := by
    cases r with
    | nil =>
        simp only [List.append_nil]
        exact munch_all fs fs.length hb (Nat.le_refl _)
    | cons c r' =>
        exact munch_append fs (fs ++ c :: r').length c r' hb (by simp) (hr c rfl)
  simp only [decTokBody, hmunch1, if_neg hd, hmunch2, if_neg hf]
  simp

/-- `decTok` on a well-formed signed token followed by a non-digit. -/
theorem decTok_token (sg ds fs r : List Char)
    (hs : sg = [] ∨ sg = ['-']) (hd : ds ≠ []) (hl : ds.length ≤ 3)
    (ha : ∀ x ∈ ds, x ∈ digitChars) (hf : fs ≠ []) (hb : ∀ x ∈ fs, x ∈ digitChars)
    (hr : headNonDigit r) :
    decTok ((sg ++ ds ++ '.' :: fs) ++ r) = some (sg ++ ds ++ '.' :: fs, r) := by
  obtain ⟨d, ds', rfl⟩ : ∃ d ds', ds = d :: ds' := by
    cases ds with
    | nil => exact absurd rfl hd
    | cons d ds' => exact ⟨d, ds', rfl⟩
  have hdnm : ¬ d = '-' := (digit_facts d (ha d (List.mem_cons_self d ds'))).2.2.2.1
  rcases hs with hs | hs <;> subst hs
  · have h1 : ([] ++ (d :: ds') ++ '.' :: fs) ++ r = d :: (ds' ++ '.' :: (fs ++ r)) := by simp
    rw [h1]
    simp only [decTok, if_neg hdnm]
    have h2 : d :: (ds' ++ '.' :: (fs ++ r)) = (d :: ds') ++ '.' :: (fs ++ r) := by simp
    rw [h2, decTokBody_spec [] (d :: ds') fs r hd hl ha hf hb hr]
  · have h1 : (['-'] ++ (d :: ds') ++ '.' :: fs) ++ r = '-' :: ((d :: ds') ++ '.' :: (fs ++ r)) := by
      simp
    rw [h1]
    simp only [decTok, if_pos rfl]
    rw [decTokBody_spec ['-'] (d :: ds') fs r hd hl ha hf hb hr]
    simp

/-- `dropWhile` is the identity when the head fails the predicate. -/
theorem dropWhile_head_false (p : Char → Bool) (l : List Char)
    (h : ∀ c, l.head? = some c → p c = false) : l.dropWhile p = l := by
  cases hl : l with
  | nil => rfl
  | cons c r =>
      apply List.dropWhile_cons_of_neg
      simp [h c (by rw [hl]; rfl)]

/-- The decimal separator segment on `", "` followed by a
non-whitespace head. -/
theorem decSep_skip (t2 : List Char) (h : ∀ c, t2.head? = some c → isPyWs c = false) :
    decSep (',' :: ' ' :: t2) = some t2 := by
  have h4 : t2.dropWhile isPyWs = t2 := dropWhile_head_false _ _ h
  have h5 : List.dropWhile isPyWs (' ' :: t2) = t2 := by
    rw [show List.dropWhile isPyWs (' ' :: t2) = List.dropWhile isPyWs t2 from rfl, h4]
  have h6 : List.dropWhile isPyWs (',' :: ' ' :: t2) = ',' :: ' ' :: t2 := rfl
  simp only [decSep, h6, h5]
  simp

/-- `getLast?` looks into the right part of an append when nonempty. -/
theorem getLast?_append_ne (l1 l2 : List Char) (h : l2 ≠ []) :
    (l1 ++ l2).getLast? = l2.getLast? := by
  cases hg : l2.getLast? with
  | none => exact absurd (List.getLast?_eq_none_iff.mp hg) h
  | some a => simp [List.getLast?_append, hg]

/-- `pyStrip` is the identity on lists with non-whitespace ends. -/
theorem pyStrip_ends (l : List Char)
    (hh : ∀ c, l.head? = some c → isPyWs c = false)
    (hg : ∀ c, l.getLast? = some c → isPyWs c = false) : pyStrip l = l := by
  have h1 : l.dropWhile isPyWs = l := dropWhile_head_false _ _ hh
  have h2 : l.reverse.dropWhile isPyWs = l.reverse := by
    apply dropWhile_head_false
    intro c hc
    rw [List.head?_reverse] at hc
    exact hg c hc
  simp only [pyStrip, h1, h2, List.reverse_reverse]

/-- The leftmost search succeeds immediately when position 0 matches. -/
theorem decSearch_head (l : List Char) (x : List Char × List Char)
    (hne : l ≠ []) (hx : decTryAt l = some x) : decSearch l = some x := by
  cases l with
  | nil => exact absurd rfl hne
  | cons c t => simp [decSearch, hx]

/-- A decimal token is nonempty. -/
theorem tok_ne_nil (sg ds fs : List Char) (hs : sg = [] ∨ sg = ['-']) :
    sg ++ ds ++ '.' :: fs ≠ [] := by
  rcases hs with hs | hs <;> subst hs <;> simp

/-- `head?` looks into the left part of an append when nonempty. -/
theorem head?_append_ne (l1 l2 : List Char) (h : l1 ≠ []) :
    (l1 ++ l2).head? = l1.head? := by
  cases l1 with
  | nil => exact absurd rfl h
  | cons c t => rfl

/-- The head of a decimal token is not whitespace. -/
theorem tok_head_ws (sg ds fs : List Char) (hs : sg = [] ∨ sg = ['-']) (hd : ds ≠ [])
    (ha : ∀ x ∈ ds, x ∈ digitChars) :
    ∀ c, (sg ++ ds ++ '.' :: fs).head? = some c → isPyWs c = false := by
  obtain ⟨d, ds', rfl⟩ : ∃ d ds', ds = d :: ds' := by
    cases ds with
    | nil => exact absurd rfl hd
    | cons d ds' => exact ⟨d, ds', rfl⟩
  rcases hs with hs | hs <;> subst hs
  · intro c hc
    simp only [List.nil_append, List.cons_append, List.head?_cons, Option.some.injEq] at hc
    subst hc
    exact (digit_facts d (ha d (List.mem_cons_self d ds'))).2.2.1
  · intro c hc
    simp only [List.cons_append, List.head?_cons, Option.some.injEq] at hc
    subst hc
    decide

/-- The decimal path of `extract_coordinates` returns an
already-canonical pair `"a, b"` unchanged: both tokens are captured
exactly as given. -/
theorem coord_idem (sg1 ds1 fs1 sg2 ds2 fs2 : List Char)
    (hs1 : sg1 = [] ∨ sg1 = ['-']) (hd1 : ds1 ≠ []) (hl1 : ds1.length ≤ 3)
    (ha1 : ∀ x ∈ ds1, x ∈ digitChars) (hf1 : fs1 ≠ []) (hb1 : ∀ x ∈ fs1, x ∈ digitChars)
    (hs2 : sg2 = [] ∨ sg2 = ['-']) (hd2 : ds2 ≠ []) (hl2 : ds2.length ≤ 3)
    (ha2 : ∀ x ∈ ds2, x ∈ digitChars) (hf2 : fs2 ≠ []) (hb2 : ∀ x ∈ fs2, x ∈ digitChars) :
    extract_coordinates
        (String.mk ((sg1 ++ ds1 ++ '.' :: fs1) ++ ',' :: ' ' :: (sg2 ++ ds2 ++ '.' :: fs2))) =
      (String.mk (sg1 ++ ds1 ++ '.' :: fs1), String.mk (sg2 ++ ds2 ++ '.' :: fs2)) := by
  have ht1ne : sg1 ++ ds1 ++ '.' :: fs1 ≠ [] := tok_ne_nil _ _ _ hs1
  have hLne : (sg1 ++ ds1 ++ '.' :: fs1) ++ ',' :: ' ' :: (sg2 ++ ds2 ++ '.' :: fs2) ≠ [] := by
    simp [ht1ne]
  have hheadL : ∀ c,
      ((sg1 ++ ds1 ++ '.' :: fs1) ++ ',' :: ' ' :: (sg2 ++ ds2 ++ '.' :: fs2)).head? = some c →
      isPyWs c = false := by
    intro c hc
    rw [head?_append_ne _ _ ht1ne] at hc
    exact tok_head_ws sg1 ds1 fs1 hs1 hd1 ha1 c hc
  have hlastL : ∀ c,
      ((sg1 ++ ds1 ++ '.' :: fs1) ++ ',' :: ' ' :: (sg2 ++ ds2 ++ '.' :: fs2)).getLast? = some c →
      isPyWs c = false := by
    intro c hc
    rw [getLast?_append_ne _ _ (by simp)] at hc
    rw [show ',' :: ' ' :: (sg2 ++ ds2 ++ '.' :: fs2) =
        [',', ' '] ++ (sg2 ++ ds2 ++ '.' :: fs2) from rfl] at hc
    rw [getLast?_append_ne _ _ (tok_ne_nil _ _ _ hs2)] at hc
    rw [getLast?_append_ne _ _ (by simp : ('.' :: fs2 : List Char) ≠ [])] at hc
    rw [show ('.' :: fs2 : List Char) = ['.'] ++ fs2 from rfl] at hc
    rw [getLast?_append_ne _ _ hf2] at hc
    exact (digit_facts c (hb2 c (List.mem_of_getLast?_eq_some hc))).2.2.1
  have hstrip : pyStrip ((sg1 ++ ds1 ++ '.' :: fs1) ++ ',' :: ' ' :: (sg2 ++ ds2 ++ '.' :: fs2)) =
      (sg1 ++ ds1 ++ '.' :: fs1) ++ ',' :: ' ' :: (sg2 ++ ds2 ++ '.' :: fs2) :=
    pyStrip_ends _ hheadL hlastL
  have htok1 : decTok ((sg1 ++ ds1 ++ '.' :: fs1) ++ ',' :: ' ' :: (sg2 ++ ds2 ++ '.' :: fs2)) =
      some (sg1 ++ ds1 ++ '.' :: fs1, ',' :: ' ' :: (sg2 ++ ds2 ++ '.' :: fs2)) :=
    decTok_token sg1 ds1 fs1 _ hs1 hd1 hl1 ha1 hf1 hb1 (fun c hc => by
      simp only [List.head?_cons, Option.some.injEq] at hc; subst hc; decide)
  have hsep : decSep (',' :: ' ' :: (sg2 ++ ds2 ++ '.' :: fs2)) =
      some (sg2 ++ ds2 ++ '.' :: fs2) :=
    decSep_skip _ (tok_head_ws sg2 ds2 fs2 hs2 hd2 ha2)
  have htok2 : decTok (sg2 ++ ds2 ++ '.' :: fs2) = some (sg2 ++ ds2 ++ '.' :: fs2, []) := by
    have h := decTok_token sg2 ds2 fs2 [] hs2 hd2 hl2 ha2 hf2 hb2 (fun c hc => by cases hc)
    simpa using h
  have htry : decTryAt ((sg1 ++ ds1 ++ '.' :: fs1) ++ ',' :: ' ' :: (sg2 ++ ds2 ++ '.' :: fs2)) =
      some (sg1 ++ ds1 ++ '.' :: fs1, sg2 ++ ds2 ++ '.' :: fs2) := by
    simp only [decTryAt, htok1, hsep, htok2]
  have hsearch := decSearch_head _ _ hLne htry
  have hne : ¬ (String.mk ((sg1 ++ ds1 ++ '.' :: fs1) ++
      ',' :: ' ' :: (sg2 ++ ds2 ++ '.' :: fs2)) = "") := by
    intro h
    exact hLne (congrArg String.data h)
  simp only [extract_coordinates, if_neg hne]
  rw [hstrip, hsearch]

/-! ### Helper lemmas for the cascade resolver and the page count -/

/-- The source cascade loop and the spec cascade loop coincide. -/
theorem loops_eq (search : Search) (text : String) :
    ∀ ps, ffLoop search text ps = findFirstSpecLoop search text ps := by
  intro ps
  induction ps with
  | nil => rfl
  | cons p ps' ih =>
      show (match search p text with
            | .invalid => ffLoop search text ps'
            | .nomatch => ffLoop search text ps'
            | .found whole groups => matchResult whole groups) =
           (match search p text with
            | .invalid => findFirstSpecLoop search text ps'
            | .nomatch => findFirstSpecLoop search text ps'
            | .found whole groups => matchResult whole groups)
      cases search p text
      · exact ih
      · exact ih
      · rfl

/-- A list that is not all-whitespace keeps a nonempty all-false
remainder under `dropWhile`. -/
theorem dropWhile_all_false (p : Char → Bool) : ∀ (l : List Char), l.all p = false →
    l.dropWhile p ≠ [] ∧ (l.dropWhile p).all p = false := by
  intro l
  induction l with
  | nil => intro h; simp at h
  | cons c t ih =>
      intro h
      by_cases hc : p c = true
      · have ht : t.all p = false := by
          rw [List.all_cons, hc] at h
          simpa using h
        rw [List.dropWhile_cons_of_pos hc]
        exact ih ht
      · have hc' : p c = false := by simpa using hc
        rw [List.dropWhile_cons_of_neg (by simp [hc'])]
        refine ⟨by simp, ?_⟩
        simp [List.all_cons, hc']

/-- All-whitespace input strips to the empty list. -/
theorem allWs_pyStrip (cs : List Char) (h : cs.all isPyWs = true) : pyStrip cs = [] := by
  have h1 : cs.dropWhile isPyWs = [] := by
    induction cs with
    | nil => rfl
    | cons c t ih =>
        rw [List.all_cons] at h
        have h1 : isPyWs c = true ∧ t.all isPyWs = true := by simpa using h
        rw [List.dropWhile_cons_of_pos (by simpa using h1.1)]
        exact ih h1.2
  simp [pyStrip, h1]

/-- Input with a non-whitespace character strips to a nonempty list. -/
theorem notAllWs_pyStrip (cs : List Char) (h : cs.all isPyWs = false) : pyStrip cs ≠ [] := by
  obtain ⟨h1, h2⟩ := dropWhile_all_false isPyWs cs h
  have h3 : (cs.dropWhile isPyWs).reverse.all isPyWs = false := by
    simpa [List.all_reverse] using h2
  obtain ⟨h4, _⟩ := dropWhile_all_false isPyWs _ h3
  intro hh
  apply h4
  have := congrArg List.reverse hh
  simpa [pyStrip] using this

/-! ### The claims -/

/-- C1: for every input text (and file path), `extract_data_points`
returns a record whose key list equals exactly `COLUMN_HEADERS`, in
schema order, with every field a string (by the type of the record);
the theorem also checks that the inline key list of the dict
initializer coincides with the configured schema.  The statement holds
for every regex-search oracle, so no exception-free regex behaviour is
assumed; totality of the embedding reflects that the source never
raises. -/
theorem c1_record_schema (search : Search) (full_text file_path : String) :
    (extract_data_points search full_text file_path).map Prod.fst = COLUMN_HEADERS ∧
    initKeys = COLUMN_HEADERS :=
  ⟨keys_extract search full_text file_path, by decide⟩

/-- C2 counterexample: the code has no minimum digit-length threshold:
`"1,000"` normalizes to `"1000"`, not to the sentinel required by the
claim (which demands the sentinel under the configured threshold, e.g.
6). -/
theorem c2_counterexample :
    normalize_number "1,000" = "1000" ∧ ¬ normalize_number "1,000" = "N/A" := by decide

/-- C2 amended: the number normalizer maps `"KShs. 8,500,000/="` to
`"8500000"` and the empty string to the sentinel; it applies no
minimum digit-length threshold, so `"1,000"` yields `"1000"`. -/
theorem c2_amended :
    normalize_number "KShs. 8,500,000/=" = "8500000" ∧
    normalize_number "" = "N/A" ∧
    normalize_number "1,000" = "1000" := by decide

/-- C3 counterexample: `c3doc` satisfies the claim's scenario (the
anchor phrase occurs exactly once, followed in the forward window by
`Date: 11th March 2025`, with a valuer name mentioned earlier and no
date attached to it), yet the resolved report date is the document's
first date-shaped token `2024-01-05`, not the March date: there is no
signature-anchored locator, only a global fuzzy search. -/
theorem c3_counterexample :
    countSub c3doc.data "practicing valuer".data = 1 ∧
    containsSub c3doc.data "Date: 11th March 2025".data = true ∧
    getVal "Valuation_Date" (extract_data_points reSearchImpl c3doc "report.pdf") =
      some "2024-01-05" ∧
    ¬ ("2024-01-05" : String) = "2025-03-11" := by
  refine ⟨by decide, by decide, ?_, by decide⟩
  rw [getVal_valuation reSearchImpl c3doc "report.pdf"]
  decide

/-- C3 amended: the report-date field is resolved by a global fuzzy
date search over the whole text (the first date-shaped match in
document order), not by a signature-anchored locator; on the claim's
scenario document it returns the March date only because no earlier
date-shaped token exists. -/
theorem c3_amended :
    (∀ (search : Search) (text path : String),
        getVal "Valuation_Date" (extract_data_points search text path) =
          some (fuzzy_date_search text)) ∧
    getVal "Valuation_Date" (extract_data_points reSearchImpl c3doc2 "report.pdf") =
      some "2025-03-11" := by
  refine ⟨getVal_valuation, ?_⟩
  rw [getVal_valuation reSearchImpl c3doc2 "report.pdf"]
  decide

/-- C4 counterexample: the decimal path applies no swap heuristic and
no range validation: `"100.5, 36.9"` (latitude candidate out of range)
is returned exactly as captured, neither swapped nor discarded. -/
theorem c4_counterexample :
    extract_coordinates "100.5, 36.9" = ("100.5", "36.9") ∧
    ¬ extract_coordinates "100.5, 36.9" = ("36.9", "100.5") ∧
    ¬ extract_coordinates "100.5, 36.9" = ("N/A", "N/A") := by decide

/-- C4 amended: in the decimal path the first two decimal-degree
tokens are returned verbatim in capture order, with no swap heuristic
and no range validation — even a pair invalid on both axes is returned
as-is. -/
theorem c4_amended :
    extract_coordinates "100.5, 36.9" = ("100.5", "36.9") ∧
    extract_coordinates "-1.30969, 36.92089" = ("-1.30969", "36.92089") ∧
    extract_coordinates "200.5, 199.9" = ("200.5", "199.9") := by decide

/-- C5 counterexample: on a text containing both `Kiambu County` and
`Nairobi County`, the County field is not resolved to any canonical
term: the greedy regex captures the whole span `Kiambu County and
Nairobi County`, so no list-order tie-break exists. -/
theorem c5_counterexample :
    getVal "County" (extract_data_points reSearchImpl
        "Kiambu County and Nairobi County" "report.pdf") =
      some "Kiambu County and Nairobi County" ∧
    ¬ getVal "County" (extract_data_points reSearchImpl
        "Kiambu County and Nairobi County" "report.pdf") = some "Nairobi County" ∧
    ¬ getVal "County" (extract_data_points reSearchImpl
        "Kiambu County and Nairobi County" "report.pdf") = some "Kiambu" := by
  have h := getVal_county reSearchImpl "Kiambu County and Nairobi County" "report.pdf"
  refine ⟨?_, ?_, ?_⟩ <;> rw [h] <;> decide

/-- C5 amended: County resolution is a generic regex cascade (greedy
span of letters/whitespace ending in `County`, up to 30 characters
before it), not a canonical-term lookup: a two-county text resolves to
the whole spanning phrase; text without `county` (case-insensitively)
resolves to the sentinel. -/
theorem c5_amended :
    county_resolution reSearchImpl "Kiambu County and Nairobi County" =
      "Kiambu County and Nairobi County" ∧
    county_resolution reSearchImpl "no mention here" = "N/A" ∧
    county_resolution reSearchImpl "located in NAKURU COUNTY zone" =
      "located in NAKURU COUNTY" := by decide

/-- C6: the general fuzzy date normalizer repairs the OCR percent sign
to the ordinal suffix and strips it: `"17% April 2025"` parses to
`"2025-04-17"`, and `"11th March 2025"` to `"2025-03-11"`. -/
theorem c6_fuzzy_dates :
    fuzzy_date_search "17% April 2025" = "2025-04-17" ∧
    fuzzy_date_search "11th March 2025" = "2025-03-11" := by decide

/-- C7 counterexample: there is no plausible-year acceptance range: a
parsed candidate with year 1823 — outside any configured range such as
2015-2025 — is returned in canonical form. -/
theorem c7_counterexample :
    fuzzy_date_search "17 April 1823" = "1823-04-17" ∧
    ¬ (2015 ≤ 1823 ∧ 1823 ≤ 2025) := by decide

/-- C7 amended: date candidates are accepted into canonical form
regardless of the parsed year; the machinery applies no year-range
check (1823, 2024 and 9999 are all accepted alike). -/
theorem c7_amended :
    fuzzy_date_search "17 April 1823" = "1823-04-17" ∧
    fuzzy_date_search "17 April 2024" = "2024-04-17" ∧
    fuzzy_date_search "17 April 9999" = "9999-04-17" := by decide

/-- C8 counterexample: the date normalizer is not idempotent on its
canonical output form: the canonical `"2025-04-17"` is re-normalized
to `"25-04-17"` (the numeric pattern matches the substring `25-04-17`
and no format template parses it). -/
theorem c8_counterexample :
    fuzzy_date_search "2025-04-17" = "25-04-17" ∧
    ¬ fuzzy_date_search "2025-04-17" = "2025-04-17" := by decide

/-- C8 amended: the number normalizer is idempotent on canonical
digit-only monetary strings, and the coordinate extractor returns any
already-canonical decimal pair (rendered `"a, b"`) unchanged; the date
normalizer, however, is not idempotent on its canonical form. -/
theorem c8_amended :
    (∀ s : String, ¬ s = "" → (∀ c ∈ s.data, c ∈ digitChars) →
        (s.data = ['0'] ∨ ¬ s.data.head? = some '0') → normalize_number s = s) ∧
    (∀ sg1 ds1 fs1 sg2 ds2 fs2 : List Char,
        (sg1 = [] ∨ sg1 = ['-']) → ds1 ≠ [] → ds1.length ≤ 3 →
        (∀ x ∈ ds1, x ∈ digitChars) → fs1 ≠ [] → (∀ x ∈ fs1, x ∈ digitChars) →
        (sg2 = [] ∨ sg2 = ['-']) → ds2 ≠ [] → ds2.length ≤ 3 →
        (∀ x ∈ ds2, x ∈ digitChars) → fs2 ≠ [] → (∀ x ∈ fs2, x ∈ digitChars) →
        extract_coordinates
            (String.mk ((sg1 ++ ds1 ++ '.' :: fs1) ++
              ',' :: ' ' :: (sg2 ++ ds2 ++ '.' :: fs2))) =
          (String.mk (sg1 ++ ds1 ++ '.' :: fs1), String.mk (sg2 ++ ds2 ++ '.' :: fs2))) ∧
    ¬ fuzzy_date_search "2025-04-17" = "2025-04-17" :=
  ⟨money_idem, coord_idem, by decide⟩

/-- C8 witness: the amended theorem applied at concrete canonical
values. -/
theorem c8_witness :
    normalize_number "8500000" = "8500000" ∧
    extract_coordinates "-1.3, 36.92" = ("-1.3", "36.92") := by
  constructor
  · exact c8_amended.1 "8500000" (by decide) (by decide) (by decide)
  · exact c8_amended.2.1 ['-'] ['1'] ['3'] [] ['3', '6'] ['9', '2']
      (Or.inr rfl) (by decide) (by decide) (by decide) (by decide) (by decide)
      (Or.inl rfl) (by decide) (by decide) (by decide) (by decide) (by decide)

/-- C9 counterexample: `find_first` silently removes any rule whose
pattern string equals the input text verbatim, so a rule that would
match usably is skipped: the claim's universal contract fails. -/
theorem c9_counterexample :
    find_first reSearchImpl ["abc"] "abc" = "N/A" ∧
    findFirstSpec reSearchImpl ["abc"] "abc" = "abc" ∧
    ¬ ("N/A" : String) = "abc" := by decide

/-- C9 amended: the cascade resolver behaves exactly as the claim's
contract (`findFirstSpec`: first usable match with group preference
and whitespace collapse, invalid rules skipped, sentinel on no match
or empty text) after rules equal to the input text verbatim are
removed. -/
theorem c9_amended (search : Search) (patterns : List String) (text : String) :
    find_first search patterns text =
      findFirstSpec search (patterns.filter (fun p => ¬ p = text)) text := by
  by_cases h : text = ""
  · simp [find_first, findFirstSpec, h]
  · simp only [find_first, findFirstSpec, if_neg h]
    exact loops_eq search text _

/-- C10: for every input with at least one non-whitespace character
the `Page_Count` field equals the decimal string of the number of
(non-overlapping) page-break-marker occurrences plus one; for empty or
all-whitespace input it equals `"0"`.  Holds for every regex oracle. -/
theorem c10_page_count (search : Search) (text path : String) :
    (text.data.all isPyWs = false →
       getVal "Page_Count" (extract_data_points search text path) =
         some (toString (countSub text.data pageBreakStr.data + 1))) ∧
    (text.data.all isPyWs = true →
       getVal "Page_Count" (extract_data_points search text path) = some "0") := by
  have hbase := getVal_pagecount search text path
  constructor
  · intro h
    rw [hbase, if_neg (notAllWs_pyStrip _ h)]
  · intro h
    rw [hbase, if_pos (allWs_pyStrip _ h)]

/-- C10 witness: the theorem applied at a concrete two-page text and a
concrete all-whitespace text. -/
theorem c10_witness :
    getVal "Page_Count" (extract_data_points reSearchImpl "a--- PAGE BREAK ---b" "f.pdf") =
      some "2" ∧
    getVal "Page_Count" (extract_data_points reSearchImpl "  " "f.pdf") = some "0" := by
  constructor
  · have h := (c10_page_count reSearchImpl "a--- PAGE BREAK ---b" "f.pdf").1 (by decide)
    rw [h]
    decide
  · exact (c10_page_count reSearchImpl "  " "f.pdf").2 (by decide)

end VDM
